import Mathlib

/-!
Verification of the interaction webhook in `main.py` (denn1s/ranobe-lnsearch).

The program is a FastAPI endpoint for Discord interactions: it verifies an
Ed25519 signature, routes on the interaction type, spawns a background search
continuation for commands, and answers component selections with an
update-message response.  We embed the program shallowly:

* network effects are explicit parameters: the catalog search outcome is an
  `Except Unit (List BookSummary)` (the result of `requests.get` on the books
  endpoint, `Except.error` standing for any `RequestException`), and the
  detail fetch `get_book_details` is an oracle `Int → Option BookDetails`
  (`none` = request failed / returned `None`);
* Python dicts become structures whose `Option` fields model possibly-absent
  keys; Python string truthiness (`if s:`) becomes a `≠ ""` test on the
  present value;
* the HTTP handler returns a `HandlerResult` recording the status code, the
  response-type tag, the response data, the continuations handed to
  `asyncio.create_task` (not awaited), and the catalog calls awaited on the
  request path strictly before the response value is produced;
* an uncaught Python exception in the handler (KeyError / IndexError /
  ValueError from `int(...)`) is modeled as status 500, which is what FastAPI
  returns for an unhandled exception.
-/

namespace RanobeLN

/-- Interaction type tags of the `discord_interactions` library. -/
def InteractionType.PING : Int := 1

/-- Tag `InteractionType.APPLICATION_COMMAND` from the `discord_interactions` library. -/
def InteractionType.APPLICATION_COMMAND : Int := 2

/-- Tag `InteractionType.MESSAGE_COMPONENT` from the `discord_interactions` library. -/
def InteractionType.MESSAGE_COMPONENT : Int := 3

/-- Response tag `InteractionResponseType.PONG`. -/
def InteractionResponseType.PONG : Int := 1

/-- Response tag `InteractionResponseType.DEFERRED_CHANNEL_MESSAGE_WITH_SOURCE`. -/
def InteractionResponseType.DEFERRED_CHANNEL_MESSAGE_WITH_SOURCE : Int := 5

/-- Response tag `InteractionResponseType.DEFERRED_UPDATE_MESSAGE`. -/
def InteractionResponseType.DEFERRED_UPDATE_MESSAGE : Int := 6

/-- Response tag `InteractionResponseType.UPDATE_MESSAGE`. -/
def InteractionResponseType.UPDATE_MESSAGE : Int := 7

/-- The `image` sub-dict of a full book record; only `filename` is read. -/
structure ImageInfo where
  filename : Option String := none
  deriving DecidableEq

/-- A full book record as consumed by `create_book_embed`; `Option` fields
model keys the Python code reads with `.get` (possibly absent). -/
structure BookData where
  id : Option Int := none
  title : Option String := none
  description : Option String := none
  image : Option ImageInfo := none
  deriving DecidableEq

/-- The JSON payload of `get_book_details`: a dict that may or may not carry
a `book` key (the code tests that `book_details` is truthy and contains
the `book` key). -/
structure BookDetails where
  book : Option BookData := none
  deriving DecidableEq

/-- A search-result summary from the books endpoint.  `id` is accessed with
a plain subscript (required, raising when absent); `title` and `lang`
with `.get` and a default. -/
structure BookSummary where
  id : Int
  title : Option String := none
  lang : Option String := none
  deriving DecidableEq

/-- One entry of the select-menu `options` list built for a multi-result
search. -/
structure SelectOption where
  label : String
  value : String
  description : String
  deriving DecidableEq

/-- The string-select component dict (`"type": 3`). -/
structure SelectMenu where
  custom_id : String
  options : List SelectOption
  placeholder : String
  deriving DecidableEq

/-- An action-row component dict (`"type": 1`). -/
structure ActionRow where
  components : List SelectMenu
  deriving DecidableEq

/-- A Discord embed as built by `create_book_embed`.  `fields` is always the
empty list in the source; `imageUrl` models `embed["image"]["url"]`, absent
when no image filename is available. -/
structure Embed where
  title : String
  color : Nat
  url : String
  fields : List String
  imageUrl : Option String
  footer : String
  description : Option String
  deriving DecidableEq

/-- A response / follow-up `data` dict.  A `none` field models an absent key
(`components := some []` is an explicitly empty components list, which for
Discord removes the UI; `components := none` means the key was not sent). -/
structure FollowUp where
  content : Option String := none
  embeds : List Embed := []
  components : Option (List ActionRow) := none
  deriving DecidableEq

/-- The `data` dict of an interaction: `options` holds the command option
values (the `value` entry of each element of `data.options`), `values`
the selected component values (`data.values`). -/
structure InteractionData where
  options : Option (List String) := none
  values : Option (List String) := none
  deriving DecidableEq

/-- An inbound interaction JSON body: `type`, the follow-up `token`, and the
optional `data` dict. -/
structure Interaction where
  type : Int
  token : String := ""
  data : Option InteractionData := none
  deriving DecidableEq

/-- A network call to the catalog (RanobeDB) API. -/
inductive CatalogCall where
  | search (query : String)
  | fetch (id : Int)
  deriving DecidableEq

/-- Observable outcome of one request to `/interactions`: HTTP status, the
JSON `type` tag (when a JSON body is returned), the response `data`, the
interactions handed to `asyncio.create_task` without being awaited, and the
catalog calls awaited on the request path before the response is produced. -/
structure HandlerResult where
  status : Nat
  tag : Option Int := none
  data : Option FollowUp := none
  spawned : List Interaction := []
  callsBefore : List CatalogCall := []
  deriving DecidableEq

/-- The id as rendered into the embed URL: `str` of the `id` key when
present, the empty-string default otherwise. -/
def pyIdStr : Option Int → String
  | some n => toString n
  | none => ""

/-- Python slicing `s[:n]` on a `str`: the first `n` code points. -/
def pyTake (n : Nat) (s : String) : String :=
  ⟨s.data.take n⟩

/-- Python `str.strip()` on a character list: remove leading and trailing
whitespace. -/
def pyStripChars (cs : List Char) : List Char :=
  ((cs.dropWhile Char.isWhitespace).reverse.dropWhile Char.isWhitespace).reverse

/-- Python `str.strip()`: remove leading and trailing whitespace. -/
def pyStrip (s : String) : String :=
  ⟨pyStripChars s.data⟩

/-- Python `str.upper()` (ASCII case mapping). -/
def pyUpper (s : String) : String :=
  ⟨s.data.map Char.toUpper⟩

/-- Numeric value of a list of decimal digit characters, most significant
first. -/
def digitsVal (cs : List Char) : Nat :=
  cs.foldl (fun n c => n * 10 + (c.toNat - '0'.toNat)) 0

/-- Python `int(s)` on a stripped character list: an optional sign followed
by a nonempty run of decimal digits; anything else raises (`none`).
(Pythonic extras such as underscores between digits are not modeled; they
never occur in this program, whose parsed values are produced by `str` of
an `int`.) -/
def pyIntChars (cs : List Char) : Option Int :=
  match cs with
  | [] => none
  | c :: rest =>
      if c = '-' then
        if rest ≠ [] ∧ rest.all Char.isDigit then some (-(digitsVal rest : Int))
        else none
      else if c = '+' then
        if rest ≠ [] ∧ rest.all Char.isDigit then some (digitsVal rest : Int)
        else none
      else
        if (c :: rest).all Char.isDigit then some (digitsVal (c :: rest) : Int)
        else none

/-- Python `int(s)`: surrounding whitespace is ignored, then an optionally
signed decimal integer; anything else raises (`none`). -/
def pyInt (s : String) : Option Int :=
  pyIntChars (pyStripChars s.data)

/-- Lines 61–67 of `main.py`: the embed description key.  It is attached
only when truthy (present and nonempty); a description longer than 1024
characters is cut to its first 1024 characters, stripped, and suffixed
with `"..."`. -/
def embedDescription : Option String → Option String
  | some d =>
      if d ≠ "" then
        if d.length > 1024 then some (pyStrip (pyTake 1024 d) ++ "...")
        else some d
      else none
  | none => none

/-- Lines 69–71 of `main.py`: the embed image URL, attached only when a
truthy `image` dict with a truthy `filename` is present. -/
def embedImageUrl : Option ImageInfo → Option String
  | some info =>
      match info.filename with
      | some f =>
          if f ≠ "" then some ("https://images.ranobedb.org/" ++ f)
          else none
      | none => none
  | none => none

/-- Function `create_book_embed(book_data)` from `main.py`: builds the embed dict. -/
def create_book_embed (book_data : BookData) : Embed :=
  { title := book_data.title.getD "Unknown Title"
    color := 0x0099ff
    url := "https://ranobedb.org/book/" ++ pyIdStr book_data.id
    fields := []
    imageUrl := embedImageUrl book_data.image
    footer := "Powered by RanobeDB"
    description := embedDescription book_data.description }

/-- Function `search_ranobedb(query, limit)`: performs one GET against the books
endpoint with a fixed result cap of 5; any `RequestException` is caught,
logged and turned into `[]`.  The network outcome of that GET (whose query
parameters carry `query` and the cap) is the explicit `upstream`
argument. -/
def search_ranobedb (query : String) (upstream : Except Unit (List BookSummary)) :
    List BookSummary :=
  match upstream with
  | .ok books => books
  | .error _ => []

/-- The query lookup `interaction.data.options[0].value`: `none` when any
of the subscripts would raise (missing `data`, missing `options`, empty
list). -/
def getCommandQuery (interaction : Interaction) : Option String :=
  match interaction.data with
  | some d =>
      match d.options with
      | some (v :: _) => some v
      | _ => none
  | none => none

/-- The selected value lookup `interaction.data.values[0]`: `none` when
any of the subscripts would raise. -/
def getSelectedValue (interaction : Interaction) : Option String :=
  match interaction.data with
  | some d =>
      match d.values with
      | some (v :: _) => some v
      | _ => none
  | none => none

/-- Content of the zero-result follow-up, referencing the query. -/
def noMatchesContent (query : String) : String :=
  "Sorry, I couldn\x27t find any books matching **" ++ query ++ "**."

/-- One dropdown option for `book`: label is the title cut to 100 chars
(placeholder `Unknown Title` when the key is absent), value is `str` of
the book id, description shows the upper-cased language. -/
def mkSelectOption (book : BookSummary) : SelectOption :=
  { label := pyTake 100 (book.title.getD "Unknown Title")
    value := toString book.id
    description := "Language: " ++ pyUpper (book.lang.getD "?") }

/-- The components list built for a multi-result search: one action row
holding one string-select with id `select_book`. -/
def multiComponents (books : List BookSummary) : List ActionRow :=
  [{ components := [{ custom_id := "select_book"
                      options := books.map mkSelectOption
                      placeholder := "Choose a book" }] }]

/-- Function `process_search_command(interaction)`: the background search
continuation.  Returns the follow-up `response_data` it posts to the webhook
URL, or `none` when extracting the query raises (the task dies before any
catalog call and no follow-up is sent).  `upstream` is the network outcome
of the search; `fetch` is the `get_book_details` oracle. -/
def process_search_command (interaction : Interaction)
    (upstream : Except Unit (List BookSummary))
    (fetch : Int → Option BookDetails) : Option FollowUp :=
  match getCommandQuery interaction with
  | none => none
  | some query =>
      let books := search_ranobedb query upstream
      some <|
        match books with
        | [] => { content := some (noMatchesContent query) }
        | [book] =>
            match fetch book.id with
            | some details =>
                match details.book with
                | some bd => { embeds := [create_book_embed bd] }
                | none =>
                    { content :=
                        some "Sorry, I couldn\x27t retrieve the details for that book." }
            | none =>
                { content :=
                    some "Sorry, I couldn\x27t retrieve the details for that book." }
        | b1 :: b2 :: rest =>
            { content := some "I found several books. Please select one from the list:"
              components := some (multiComponents (b1 :: b2 :: rest)) }

/-- Function `handle_interactions(request)`: the `/interactions` endpoint.
`signature` and `timestamp` are the two headers; `verifyOk` is the outcome
of `verify_key(body, signature, timestamp, PUBLIC_KEY)`; `fetch` is the
`get_book_details` oracle used inline on the component path. -/
def handle_interactions (signature timestamp : Option String) (verifyOk : Bool)
    (interaction : Interaction) (fetch : Int → Option BookDetails) : HandlerResult :=
  if signature = none ∨ timestamp = none ∨ verifyOk = false then
    { status := 401 }
  else if interaction.type = InteractionType.PING then
    { status := 200, tag := some InteractionResponseType.PONG }
  else if interaction.type = InteractionType.APPLICATION_COMMAND then
    { status := 200
      tag := some InteractionResponseType.DEFERRED_CHANNEL_MESSAGE_WITH_SOURCE
      spawned := [interaction] }
  else if interaction.type = InteractionType.MESSAGE_COMPONENT then
    match getSelectedValue interaction with
    | none => { status := 500 }
    | some v =>
        match pyInt v with
        | none => { status := 500 }
        | some book_id =>
            match fetch book_id with
            | some details =>
                match details.book with
                | some bd =>
                    { status := 200
                      tag := some InteractionResponseType.UPDATE_MESSAGE
                      data := some { content := some ""
                                     embeds := [create_book_embed bd]
                                     components := some [] }
                      callsBefore := [CatalogCall.fetch book_id] }
                | none =>
                    { status := 200
                      tag := some InteractionResponseType.UPDATE_MESSAGE
                      data := some
                        { content :=
                            some "Sorry, I couldn\x27t retrieve details for that selection."
                          components := some [] }
                      callsBefore := [CatalogCall.fetch book_id] }
            | none =>
                { status := 200
                  tag := some InteractionResponseType.UPDATE_MESSAGE
                  data := some
                    { content :=
                        some "Sorry, I couldn\x27t retrieve details for that selection."
                      components := some [] }
                  callsBefore := [CatalogCall.fetch book_id] }
  else
    { status := 404 }

/-- The multi-result follow-up built for two or more search results. -/
def multiFollowUp (books : List BookSummary) : FollowUp :=
  { content := some "I found several books. Please select one from the list:"
    components := some (multiComponents books) }

/-- All select options reachable in a follow-up, flattening action rows and
select menus. -/
def FollowUp.selectOptions (f : FollowUp) : List SelectOption :=
  (f.components.getD []).flatMap fun row => row.components.flatMap fun m => m.options

/-- A session of independent interactions: a list of command continuations
(each carrying its own upstream search outcome) together with one component
selection request.  There is no shared state anywhere in the program: each
continuation sees only its own `Interaction`, and the selection handler
sees only its own request and the fetch oracle. -/
def runScenario (searches : List (Interaction × Except Unit (List BookSummary)))
    (sel : Interaction) (sig ts : String) (fetch : Int → Option BookDetails) :
    List (Option FollowUp) × HandlerResult :=
  (searches.map fun p => process_search_command p.1 p.2 fetch,
   handle_interactions (some sig) (some ts) true sel fetch)

/-!
## Helper lemmas

Correctness of the decimal rendering used by `str` of a book id against the
Python `int` parser model: `pyInt (toString n) = some n`, plus small facts
about digits, whitespace and truncation used by the claim theorems.
-/

/-- For `m < 10`, `Nat.digitChar m` is a decimal digit character. -/
theorem digitChar_isDigit {m : Nat} (h : m < 10) : (Nat.digitChar m).isDigit = true := by
  interval_cases m <;> decide

/-- For `m < 10`, the numeric value of `Nat.digitChar m` is `m`. -/
theorem digitChar_val {m : Nat} (h : m < 10) : (Nat.digitChar m).toNat - '0'.toNat = m := by
  interval_cases m <;> decide

/-- Core rendering: `Nat.toDigitsCore` only ever appends to its accumulator. -/
theorem toDigitsCore_append (b : Nat) :
    ∀ (fuel n : Nat) (ds : List Char),
      Nat.toDigitsCore b fuel n ds = Nat.toDigitsCore b fuel n [] ++ ds
  | 0, _, _ => rfl
  | fuel + 1, n, ds => by
    simp only [Nat.toDigitsCore]
    by_cases h : n / b = 0
    · simp [h]
    · simp only [h, if_false]
      rw [toDigitsCore_append b fuel (n / b) (Nat.digitChar (n % b) :: ds),
        toDigitsCore_append b fuel (n / b) [Nat.digitChar (n % b)]]
      simp

/-- Core rendering: `Nat.toDigitsCore` does not depend on its fuel, once sufficient. -/
theorem toDigitsCore_fuel {b : Nat} (hb : 2 ≤ b) :
    ∀ (f1 f2 n : Nat) (ds : List Char), n < f1 → n < f2 →
      Nat.toDigitsCore b f1 n ds = Nat.toDigitsCore b f2 n ds
  | f1 + 1, f2 + 1, n, ds, h1, h2 => by
    simp only [Nat.toDigitsCore]
    by_cases h : n / b = 0
    · simp [h]
    · simp only [h, if_false]
      have hn : 0 < n := by
        rcases Nat.eq_zero_or_pos n with rfl | hn
        · simp [Nat.zero_div] at h
        · exact hn
      have hdiv : n / b < n := Nat.div_lt_self hn (by omega)
      exact toDigitsCore_fuel hb f1 f2 (n / b) _ (by omega) (by omega)

/-- One-digit base case of `Nat.toDigits`. -/
theorem toDigits_of_lt {n : Nat} (h : n < 10) : Nat.toDigits 10 n = [Nat.digitChar n] := by
  simp only [Nat.toDigits, Nat.toDigitsCore]
  simp [Nat.div_eq_of_lt h, Nat.mod_eq_of_lt h]

/-- Unfolding step of `Nat.toDigits` for numbers of two or more digits. -/
theorem toDigits_of_ge {n : Nat} (h : 10 ≤ n) :
    Nat.toDigits 10 n = Nat.toDigits 10 (n / 10) ++ [Nat.digitChar (n % 10)] := by
  have h0 : n / 10 ≠ 0 := by
    have := Nat.div_pos h (by omega)
    omega
  conv_lhs => simp only [Nat.toDigits, Nat.toDigitsCore]
  simp only [h0, if_false]
  rw [toDigitsCore_append 10 n (n / 10) [Nat.digitChar (n % 10)]]
  congr 1
  have hdiv : n / 10 < n := Nat.div_lt_self (by omega) (by omega)
  exact toDigitsCore_fuel (by omega) n (n / 10 + 1) (n / 10) [] (by omega) (by omega)

/-- Every character of a decimal rendering is a digit. -/
theorem toDigits_all_isDigit (n : Nat) : ∀ c ∈ Nat.toDigits 10 n, c.isDigit = true := by
  induction n using Nat.strong_induction_on with
  | _ n ih =>
    by_cases h : n < 10
    · rw [toDigits_of_lt h]
      intro c hc
      simp at hc
      subst hc
      exact digitChar_isDigit h
    · rw [toDigits_of_ge (by omega)]
      intro c hc
      rcases List.mem_append.mp hc with hc | hc
      · exact ih (n / 10) (Nat.div_lt_self (by omega) (by omega)) c hc
      · simp at hc
        subst hc
        exact digitChar_isDigit (Nat.mod_lt _ (by omega))

/-- A decimal rendering is never empty. -/
theorem toDigits_ne_nil (n : Nat) : Nat.toDigits 10 n ≠ [] := by
  by_cases h : n < 10
  · rw [toDigits_of_lt h]; simp
  · rw [toDigits_of_ge (by omega)]; simp

/-- Evaluating `digitsVal` on a snoc. -/
theorem digitsVal_append_singleton (xs : List Char) (c : Char) :
    digitsVal (xs ++ [c]) = digitsVal xs * 10 + (c.toNat - '0'.toNat) := by
  simp [digitsVal, List.foldl_append]

/-- Evaluating the digits of `n` gives back `n`. -/
theorem digitsVal_toDigits (n : Nat) : digitsVal (Nat.toDigits 10 n) = n := by
  induction n using Nat.strong_induction_on with
  | _ n ih =>
    by_cases h : n < 10
    · rw [toDigits_of_lt h]
      have h2 := digitChar_val h
      simp only [digitsVal, List.foldl_cons, List.foldl_nil]
      omega
    · rw [toDigits_of_ge (by omega), digitsVal_append_singleton,
        ih (n / 10) (Nat.div_lt_self (by omega) (by omega)),
        digitChar_val (Nat.mod_lt _ (by omega))]
      omega

/-- Digit characters are not whitespace. -/
theorem isDigit_not_isWhitespace {c : Char} (h : c.isDigit = true) :
    c.isWhitespace = false := by
  by_contra hw
  rw [Bool.not_eq_false] at hw
  simp only [Char.isWhitespace, Bool.or_eq_true, decide_eq_true_eq] at hw
  rcases hw with ((rfl | rfl) | rfl) | rfl <;> exact absurd h (by decide)

/-- List `dropWhile` is the identity on a list with no satisfying head. -/
theorem dropWhile_eq_self {p : Char → Bool} :
    ∀ (cs : List Char), (∀ c ∈ cs, p c = false) → cs.dropWhile p = cs
  | [], _ => rfl
  | c :: cs, h => by simp [List.dropWhile, h c (by simp)]

/-- Stripping is the identity on whitespace-free text. -/
theorem pyStripChars_eq_self {cs : List Char}
    (h : ∀ c ∈ cs, c.isWhitespace = false) : pyStripChars cs = cs := by
  unfold pyStripChars
  rw [dropWhile_eq_self cs h,
    dropWhile_eq_self cs.reverse (fun c hc => h c (List.mem_reverse.mp hc)),
    List.reverse_reverse]

/-- A digit character is not the minus sign. -/
theorem isDigit_ne_minus {c : Char} (h : c.isDigit = true) : c ≠ '-' := by
  rintro rfl; simp [Char.isDigit] at h

/-- A digit character is not the plus sign. -/
theorem isDigit_ne_plus {c : Char} (h : c.isDigit = true) : c ≠ '+' := by
  rintro rfl; simp [Char.isDigit] at h

/-- The Python `int` model accepts a nonempty all-digit string. -/
theorem pyIntChars_digits {cs : List Char} (hne : cs ≠ [])
    (hdig : ∀ c ∈ cs, c.isDigit = true) :
    pyIntChars cs = some (digitsVal cs : Int) := by
  match cs, hne with
  | c :: rest, _ =>
    have hc : c.isDigit = true := hdig c (by simp)
    simp only [pyIntChars, isDigit_ne_minus hc, if_false, isDigit_ne_plus hc]
    rw [if_pos]
    simp only [List.all_eq_true]
    exact fun x hx => hdig x hx

/-- The character data of `Nat.repr`. -/
theorem natRepr_data (m : Nat) : (Nat.repr m).data = Nat.toDigits 10 m := rfl

/-- Parsing `int(str(m))` round-trips for naturals. -/
theorem pyInt_natRepr (m : Nat) : pyInt (Nat.repr m) = some (m : Int) := by
  rw [pyInt, natRepr_data,
    pyStripChars_eq_self (fun c hc => isDigit_not_isWhitespace (toDigits_all_isDigit m c hc)),
    pyIntChars_digits (toDigits_ne_nil m) (toDigits_all_isDigit m),
    digitsVal_toDigits]

/-- Rendering `str` of a nonnegative integer is the natural rendering. -/
theorem toString_int_ofNat (m : Nat) : toString (Int.ofNat m) = Nat.repr m := rfl

/-- Rendering `str` of a negative integer is a minus sign followed by digits. -/
theorem toString_int_negSucc (m : Nat) :
    (toString (Int.negSucc m)).data = '-' :: Nat.toDigits 10 (m + 1) := rfl

/-- Parsing `int(str(n))` round-trips for every Python integer `n`: the option
values emitted by a multi-result search parse back to the original id. -/
theorem pyInt_toString_int (n : Int) : pyInt (toString n) = some n := by
  cases n with
  | ofNat m => rw [toString_int_ofNat]; exact pyInt_natRepr m
  | negSucc m =>
    have hws : ∀ c ∈ '-' :: Nat.toDigits 10 (m + 1), c.isWhitespace = false := by
      intro c hc
      rcases List.mem_cons.mp hc with rfl | hc
      · decide
      · exact isDigit_not_isWhitespace (toDigits_all_isDigit (m + 1) c hc)
    have hcond : Nat.toDigits 10 (m + 1) ≠ [] ∧
        (Nat.toDigits 10 (m + 1)).all Char.isDigit = true :=
      ⟨toDigits_ne_nil (m + 1), List.all_eq_true.mpr
        (fun x hx => toDigits_all_isDigit (m + 1) x hx)⟩
    rw [pyInt, toString_int_negSucc, pyStripChars_eq_self hws]
    simp only [pyIntChars]
    rw [if_true, if_pos hcond, digitsVal_toDigits]
    simp [Int.negSucc_eq]

/-- A Python slice `s[:n]` has at most `n` characters. -/
theorem pyTake_length_le (n : Nat) (s : String) : (pyTake n s).length ≤ n := by
  show (s.data.take n).length ≤ n
  simp [List.length_take]

/-!
## Claim theorems
-/

/-- C9: for every request with a valid signature and kind `Ping`, the
response is the `Pong` tag produced synchronously, with no background
continuation spawned (`spawned = []`) and no catalog call made
(`callsBefore = []`, and the response carries no data). -/
theorem ping_pong_synchronous (sig ts : String) (interaction : Interaction)
    (fetch : Int → Option BookDetails)
    (h : interaction.type = InteractionType.PING) :
    handle_interactions (some sig) (some ts) true interaction fetch =
      { status := 200, tag := some InteractionResponseType.PONG } := by
  simp [handle_interactions, h]

/-- Witness for C9 at a concrete ping interaction. -/
theorem ping_pong_synchronous_witness :
    handle_interactions (some "sig") (some "ts") true { type := 1 } (fun _ => none) =
      { status := 200, tag := some InteractionResponseType.PONG } :=
  ping_pong_synchronous "sig" "ts" { type := 1 } (fun _ => none) rfl

/-- C2: for every verified `Command` interaction, the synchronous response
is HTTP 200 carrying the deferred-channel tag; the continuation is handed
off (`spawned = [interaction]`) and no catalog call is awaited on the
request path before the response (`callsBefore = []`), so the HTTP
response does not wait on the Catalog Client. -/
theorem command_deferred_before_catalog (sig ts : String) (interaction : Interaction)
    (fetch : Int → Option BookDetails)
    (h : interaction.type = InteractionType.APPLICATION_COMMAND) :
    handle_interactions (some sig) (some ts) true interaction fetch =
      { status := 200
        tag := some InteractionResponseType.DEFERRED_CHANNEL_MESSAGE_WITH_SOURCE
        spawned := [interaction] } := by
  simp [handle_interactions, h, InteractionType.APPLICATION_COMMAND, InteractionType.PING]

/-- Witness for C2 at a concrete command interaction. -/
theorem command_deferred_before_catalog_witness :
    handle_interactions (some "sig") (some "ts") true
      { type := 2, token := "tok", data := some { options := some ["isekai"] } }
      (fun _ => none) =
      { status := 200
        tag := some InteractionResponseType.DEFERRED_CHANNEL_MESSAGE_WITH_SOURCE
        spawned := [{ type := 2, token := "tok", data := some { options := some ["isekai"] } }] } :=
  command_deferred_before_catalog "sig" "ts"
    { type := 2, token := "tok", data := some { options := some ["isekai"] } }
    (fun _ => none) rfl

/-- C3: whenever the signature header or the timestamp header is absent, or
the signature fails verification, the response is a uniform 401 regardless
of the body (`interaction` is universally quantified), and no routing
outcome, continuation or catalog call occurs (`tag`, `data`, `spawned`,
`callsBefore` are all empty). -/
theorem bad_signature_uniform_401 (signature timestamp : Option String)
    (verifyOk : Bool) (interaction : Interaction) (fetch : Int → Option BookDetails)
    (h : signature = none ∨ timestamp = none ∨ verifyOk = false) :
    handle_interactions signature timestamp verifyOk interaction fetch =
      { status := 401 } := by
  unfold handle_interactions
  rw [if_pos h]

/-- Witness for C3: missing signature header on an otherwise well-formed
ping body. -/
theorem bad_signature_uniform_401_witness :
    handle_interactions none (some "ts") true { type := 1 } (fun _ => none) =
      { status := 401 } :=
  bad_signature_uniform_401 none (some "ts") true { type := 1 } (fun _ => none)
    (Or.inl rfl)

/-- C7: when the catalog upstream fails, `search_ranobedb` swallows the
error into an empty list, and the continuation produces exactly the same
"no results" follow-up as a genuinely empty search — never a propagated
error. -/
theorem upstream_failure_swallowed (interaction : Interaction) (q : String)
    (fetch : Int → Option BookDetails) (e : Unit)
    (hq : getCommandQuery interaction = some q) :
    search_ranobedb q (.error e) = [] ∧
    process_search_command interaction (.error e) fetch =
      some { content := some (noMatchesContent q) } ∧
    process_search_command interaction (.error e) fetch =
      process_search_command interaction (.ok []) fetch := by
  refine ⟨rfl, ?_, ?_⟩ <;>
    simp [process_search_command, hq, search_ranobedb]

/-- Witness for C7 at a concrete failed search. -/
theorem upstream_failure_swallowed_witness :
    search_ranobedb "isekai" (.error ()) = [] ∧
    process_search_command { type := 2, data := some { options := some ["isekai"] } }
        (.error ()) (fun _ => none) =
      some { content := some (noMatchesContent "isekai") } ∧
    process_search_command { type := 2, data := some { options := some ["isekai"] } }
        (.error ()) (fun _ => none) =
      process_search_command { type := 2, data := some { options := some ["isekai"] } }
        (.ok []) (fun _ => none) :=
  upstream_failure_swallowed { type := 2, data := some { options := some ["isekai"] } }
    "isekai" (fun _ => none) () rfl

/-- On two or more search results, the continuation sends the dropdown
follow-up. -/
theorem process_multi_eq (interaction : Interaction) (q : String)
    (upstream : Except Unit (List BookSummary)) (fetch : Int → Option BookDetails)
    (b1 b2 : BookSummary) (rest : List BookSummary)
    (hq : getCommandQuery interaction = some q)
    (hb : search_ranobedb q upstream = b1 :: b2 :: rest) :
    process_search_command interaction upstream fetch =
      some (multiFollowUp (b1 :: b2 :: rest)) := by
  simp [process_search_command, hq, hb, multiFollowUp]

/-- The options of the dropdown follow-up are exactly the mapped records. -/
theorem multiFollowUp_selectOptions (books : List BookSummary) :
    (multiFollowUp books).selectOptions = books.map mkSelectOption := by
  simp [multiFollowUp, FollowUp.selectOptions, multiComponents]

/-- C10: in every multi-match follow-up, each option label is the record
title cut to at most 100 characters (placeholder `Unknown Title` when the
title is absent), so no label exceeds 100 characters. -/
theorem option_label_truncated (interaction : Interaction) (q : String)
    (upstream : Except Unit (List BookSummary)) (fetch : Int → Option BookDetails)
    (books : List BookSummary)
    (hq : getCommandQuery interaction = some q)
    (hb : search_ranobedb q upstream = books)
    (hlen : 2 ≤ books.length) :
    ∃ f, process_search_command interaction upstream fetch = some f ∧
      f.selectOptions = books.map mkSelectOption ∧
      ∀ opt ∈ f.selectOptions,
        opt.label.length ≤ 100 ∧
        ∃ b ∈ books, opt.label = pyTake 100 (b.title.getD "Unknown Title") := by
  rcases books with _ | ⟨b1, _ | ⟨b2, rest⟩⟩
  · simp at hlen
  · simp at hlen
  · refine ⟨multiFollowUp (b1 :: b2 :: rest),
      process_multi_eq interaction q upstream fetch b1 b2 rest hq hb,
      multiFollowUp_selectOptions (b1 :: b2 :: rest), ?_⟩
    intro opt hopt
    rw [multiFollowUp_selectOptions] at hopt
    obtain ⟨b, hbmem, rfl⟩ := List.mem_map.mp hopt
    exact ⟨pyTake_length_le 100 _, b, hbmem, rfl⟩

/-- Witness for C10: a concrete two-result search, one title absent; the
labels are the 100-character truncations and stay within bound. -/
theorem option_label_truncated_witness :
    ((process_search_command { type := 2, data := some { options := some ["q"] } }
        (.ok [{ id := 10, title := some "Alpha" }, { id := 11 }]) (fun _ => none)).map
      FollowUp.selectOptions).map (List.map SelectOption.label) =
      some ["Alpha", "Unknown Title"] := by
  have h := option_label_truncated { type := 2, data := some { options := some ["q"] } }
    "q" (.ok [{ id := 10, title := some "Alpha" }, { id := 11 }]) (fun _ => none)
    [{ id := 10, title := some "Alpha" }, { id := 11 }] rfl rfl (by decide)
  obtain ⟨f, hf, hopts, _⟩ := h
  rw [hf]
  simp only [Option.map_some']
  rw [hopts]
  decide

/-- C4 counterexample: a search with exactly one match whose detail fetch
fails produces a follow-up with a failure text and zero display cards, not
"exactly one display card" — refuting the one-match branch of the claim as
stated. -/
theorem single_match_fetch_failure_cex :
    (search_ranobedb "q" (Except.ok [({ id := 5 } : BookSummary)])).length = 1 ∧
    process_search_command { type := 2, data := some { options := some ["q"] } }
        (Except.ok [({ id := 5 } : BookSummary)]) (fun _ => none) =
      some { content := some "Sorry, I couldn\x27t retrieve the details for that book." } ∧
    (process_search_command { type := 2, data := some { options := some ["q"] } }
        (Except.ok [({ id := 5 } : BookSummary)]) (fun _ => none)).map FollowUp.embeds =
      some [] := by
  refine ⟨rfl, rfl, rfl⟩

/-- C4 (amended): zero matches yield the "no matches" text referencing the
query; exactly one match yields exactly one display card and no options
provided the detail fetch succeeds; `N > 1` matches yield exactly `N`
options whose values are the record catalog ids rendered by `str`, and no
embeds. -/
theorem search_followup_shape (interaction : Interaction) (q : String)
    (upstream : Except Unit (List BookSummary)) (fetch : Int → Option BookDetails)
    (hq : getCommandQuery interaction = some q) :
    (search_ranobedb q upstream = [] →
      process_search_command interaction upstream fetch =
        some { content := some (noMatchesContent q) }) ∧
    (∀ b details bd, search_ranobedb q upstream = [b] →
      fetch b.id = some details → details.book = some bd →
      process_search_command interaction upstream fetch =
        some { embeds := [create_book_embed bd] }) ∧
    (∀ books, search_ranobedb q upstream = books → 2 ≤ books.length →
      ∃ f, process_search_command interaction upstream fetch = some f ∧
        f.selectOptions.length = books.length ∧
        f.selectOptions.map SelectOption.value =
          books.map (fun b => toString b.id) ∧
        f.embeds = []) := by
  refine ⟨?_, ?_, ?_⟩
  · intro h
    simp [process_search_command, hq, h]
  · intro b details bd h hfetch hbook
    simp [process_search_command, hq, h, hfetch, hbook]
  · intro books hb hlen
    rcases books with _ | ⟨b1, _ | ⟨b2, rest⟩⟩
    · simp at hlen
    · simp at hlen
    · refine ⟨multiFollowUp (b1 :: b2 :: rest),
        process_multi_eq interaction q upstream fetch b1 b2 rest hq hb, ?_, ?_, ?_⟩
      · rw [multiFollowUp_selectOptions]
        simp
      · rw [multiFollowUp_selectOptions, List.map_map]
        simp [mkSelectOption, Function.comp]
      · simp [multiFollowUp]

/-- Witness for C4 at the spec scenario: query "isekai" with records
`{10, 11, 12}` gives three options valued `"10"`, `"11"`, `"12"`. -/
theorem search_followup_shape_witness :
    ((process_search_command { type := 2, data := some { options := some ["isekai"] } }
        (.ok [{ id := 10 }, { id := 11 }, { id := 12 }]) (fun _ => none)).map
      FollowUp.selectOptions).map (List.map SelectOption.value) =
      some ["10", "11", "12"] := by
  have h := (search_followup_shape { type := 2, data := some { options := some ["isekai"] } }
    "isekai" (.ok [{ id := 10 }, { id := 11 }, { id := 12 }]) (fun _ => none) rfl).2.2
    [{ id := 10 }, { id := 11 }, { id := 12 }] rfl (by decide)
  obtain ⟨f, hf, _, hvals, _⟩ := h
  rw [hf]
  simp only [Option.map_some']
  rw [hvals]
  decide

/-- C8 counterexample: a record whose description is the empty string is at
or under the 1024-character budget, yet the built card carries no
description at all (Python truthiness drops it), so the description does
not "appear in the card unchanged". -/
theorem empty_description_dropped_cex :
    ("" : String).length ≤ 1024 ∧
    (create_book_embed { description := some "" }).description = none :=
  ⟨by decide, rfl⟩

/-- C8 (amended): a description strictly longer than 1024 characters is cut
to a strict prefix of at most 1024 characters, stripped, and given the
trailing `"..."` marker; a nonempty description at or under the budget is
passed through unchanged; an empty (or absent) description yields no
description field. -/
theorem description_truncation (book : BookData) (d : String)
    (hd : book.description = some d) :
    (1024 < d.length →
      (create_book_embed book).description =
        some (pyStrip (pyTake 1024 d) ++ "...") ∧
      (pyTake 1024 d).length < d.length ∧ (pyTake 1024 d).length ≤ 1024) ∧
    (d ≠ "" → d.length ≤ 1024 → (create_book_embed book).description = some d) ∧
    (d = "" → (create_book_embed book).description = none) := by
  have hdesc : (create_book_embed book).description = embedDescription book.description := rfl
  rw [hdesc, hd]
  have htk : (pyTake 1024 d).length = min 1024 d.length := by
    show (d.data.take 1024).length = min 1024 d.data.length
    simp [List.length_take]
  refine ⟨fun h1024 => ?_, fun hne hle => ?_, fun hempty => ?_⟩
  · have hne : d ≠ "" := by
      rintro rfl
      exact absurd h1024 (by decide)
    refine ⟨?_, by omega, by omega⟩
    simp only [embedDescription]
    rw [if_pos hne, if_pos h1024]
  · simp only [embedDescription, hne, ne_eq, not_false_iff, if_true]
    rw [if_neg (by omega)]
  · subst hempty
    simp [embedDescription]

/-- Witness for C8 at concrete descriptions on both sides of the
boundary. -/
theorem description_truncation_witness :
    (create_book_embed { description := some "hi" }).description = some "hi" :=
  (description_truncation { description := some "hi" } "hi" rfl).2.1 (by decide)
    (by decide)

/-- The component-selection path on a successful fetch: an inline
`UPDATE_MESSAGE` carrying the card, with the catalog fetch awaited before
the response. -/
theorem handle_component_success (sig ts : String) (interaction : Interaction)
    (fetch : Int → Option BookDetails) (v : String) (book_id : Int)
    (details : BookDetails) (bd : BookData)
    (htype : interaction.type = InteractionType.MESSAGE_COMPONENT)
    (hv : getSelectedValue interaction = some v)
    (hid : pyInt v = some book_id)
    (hf : fetch book_id = some details) (hb : details.book = some bd) :
    handle_interactions (some sig) (some ts) true interaction fetch =
      { status := 200
        tag := some InteractionResponseType.UPDATE_MESSAGE
        data := some { content := some ""
                       embeds := [create_book_embed bd]
                       components := some [] }
        callsBefore := [CatalogCall.fetch book_id] } := by
  simp [handle_interactions, htype, hv, hid, hf, hb, InteractionType.MESSAGE_COMPONENT,
    InteractionType.PING, InteractionType.APPLICATION_COMMAND]

/-- The component-selection path on a failed fetch (request error or
payload without a `book` key): an inline `UPDATE_MESSAGE` carrying the
failure notice, with the catalog fetch awaited before the response. -/
theorem handle_component_failure (sig ts : String) (interaction : Interaction)
    (fetch : Int → Option BookDetails) (v : String) (book_id : Int)
    (htype : interaction.type = InteractionType.MESSAGE_COMPONENT)
    (hv : getSelectedValue interaction = some v)
    (hid : pyInt v = some book_id)
    (hf : fetch book_id = none ∨
      ∃ details, fetch book_id = some details ∧ details.book = none) :
    handle_interactions (some sig) (some ts) true interaction fetch =
      { status := 200
        tag := some InteractionResponseType.UPDATE_MESSAGE
        data := some
          { content := some "Sorry, I couldn\x27t retrieve details for that selection."
            components := some [] }
        callsBefore := [CatalogCall.fetch book_id] } := by
  rcases hf with hf | ⟨details, hf, hb⟩
  · simp [handle_interactions, htype, hv, hid, hf, InteractionType.MESSAGE_COMPONENT,
      InteractionType.PING, InteractionType.APPLICATION_COMMAND]
  · simp [handle_interactions, htype, hv, hid, hf, hb, InteractionType.MESSAGE_COMPONENT,
      InteractionType.PING, InteractionType.APPLICATION_COMMAND]

/-- C1 counterexample: a verified `ComponentSelect` interaction does not
receive the "deferred, update existing message" tag; the handler awaits the
catalog fetch on the request path (`callsBefore ≠ []`) and responds with
the plain `UPDATE_MESSAGE` tag. -/
theorem component_select_not_deferred_cex :
    (handle_interactions (some "sig") (some "ts") true
        { type := 3, token := "tok", data := some { values := some ["11"] } }
        (fun _ => none)).tag ≠
      some InteractionResponseType.DEFERRED_UPDATE_MESSAGE ∧
    (handle_interactions (some "sig") (some "ts") true
        { type := 3, token := "tok", data := some { values := some ["11"] } }
        (fun _ => none)).callsBefore = [CatalogCall.fetch 11] := by
  decide

/-- C1 (amended): for every verified `ComponentSelect` interaction with a
well-formed selected value, the dispatcher performs the detail fetch
inline — the catalog call for the selected id is awaited before the
response — and then returns the `UPDATE_MESSAGE` tag (not a deferred tag);
no background continuation is scheduled. -/
theorem component_select_inline_update (sig ts : String) (interaction : Interaction)
    (fetch : Int → Option BookDetails) (v : String) (book_id : Int)
    (htype : interaction.type = InteractionType.MESSAGE_COMPONENT)
    (hv : getSelectedValue interaction = some v)
    (hid : pyInt v = some book_id) :
    (handle_interactions (some sig) (some ts) true interaction fetch).status = 200 ∧
    (handle_interactions (some sig) (some ts) true interaction fetch).tag =
      some InteractionResponseType.UPDATE_MESSAGE ∧
    (handle_interactions (some sig) (some ts) true interaction fetch).callsBefore =
      [CatalogCall.fetch book_id] ∧
    (handle_interactions (some sig) (some ts) true interaction fetch).spawned = [] := by
  cases hf : fetch book_id with
  | none =>
      rw [handle_component_failure sig ts interaction fetch v book_id htype hv hid
        (Or.inl hf)]
      exact ⟨rfl, rfl, rfl, rfl⟩
  | some details =>
      cases hb : details.book with
      | none =>
          rw [handle_component_failure sig ts interaction fetch v book_id htype hv hid
            (Or.inr ⟨details, hf, hb⟩)]
          exact ⟨rfl, rfl, rfl, rfl⟩
      | some bd =>
          rw [handle_component_success sig ts interaction fetch v book_id details bd
            htype hv hid hf hb]
          exact ⟨rfl, rfl, rfl, rfl⟩

/-- Witness for C1 (amended) at a concrete selection. -/
theorem component_select_inline_update_witness :
    (handle_interactions (some "sig") (some "ts") true
        { type := 3, token := "tok", data := some { values := some ["7"] } }
        (fun _ => none)).tag = some InteractionResponseType.UPDATE_MESSAGE ∧
    (handle_interactions (some "sig") (some "ts") true
        { type := 3, token := "tok", data := some { values := some ["7"] } }
        (fun _ => none)).callsBefore = [CatalogCall.fetch 7] :=
  have h := component_select_inline_update "sig" "ts"
    { type := 3, token := "tok", data := some { values := some ["7"] } }
    (fun _ => none) "7" 7 rfl rfl (by decide)
  ⟨h.2.1, h.2.2.1⟩

/-- C6 counterexample: a verified `Command` whose payload is malformed (no
`data`, hence no options) is not surfaced as 404 — it is dispatched with
the deferred tag, and its continuation dies without sending any
follow-up. -/
theorem malformed_payload_not_404_cex :
    (handle_interactions (some "sig") (some "ts") true { type := 2, token := "tok" }
        (fun _ => none)).status = 200 ∧
    (handle_interactions (some "sig") (some "ts") true { type := 2, token := "tok" }
        (fun _ => none)).tag =
      some InteractionResponseType.DEFERRED_CHANNEL_MESSAGE_WITH_SOURCE ∧
    getCommandQuery { type := 2, token := "tok" } = none ∧
    process_search_command { type := 2, token := "tok" } (.ok []) (fun _ => none) =
      none := by
  decide

/-- C6 (amended): payloads are not validated against the kind before
dispatch.  A verified `Command` is dispatched with the deferred tag
regardless of its payload, and a malformed command payload merely kills the
continuation (no follow-up); a verified `ComponentSelect` whose value is
missing or not an integer raises, surfacing as an unhandled-exception 500;
only an unrecognized interaction kind is surfaced as 404. -/
theorem payload_not_validated_dispatch (sig ts : String) (interaction : Interaction)
    (fetch : Int → Option BookDetails) :
    (interaction.type = InteractionType.APPLICATION_COMMAND →
      (handle_interactions (some sig) (some ts) true interaction fetch).status = 200 ∧
      (handle_interactions (some sig) (some ts) true interaction fetch).tag =
        some InteractionResponseType.DEFERRED_CHANNEL_MESSAGE_WITH_SOURCE ∧
      (getCommandQuery interaction = none →
        ∀ upstream, process_search_command interaction upstream fetch = none)) ∧
    (interaction.type = InteractionType.MESSAGE_COMPONENT →
      (getSelectedValue interaction = none →
        handle_interactions (some sig) (some ts) true interaction fetch =
          { status := 500 }) ∧
      (∀ v, getSelectedValue interaction = some v → pyInt v = none →
        handle_interactions (some sig) (some ts) true interaction fetch =
          { status := 500 })) ∧
    (interaction.type ≠ InteractionType.PING →
      interaction.type ≠ InteractionType.APPLICATION_COMMAND →
      interaction.type ≠ InteractionType.MESSAGE_COMPONENT →
      handle_interactions (some sig) (some ts) true interaction fetch =
        { status := 404 }) := by
  refine ⟨fun h => ⟨?_, ?_, fun hq upstream => ?_⟩,
    fun h => ⟨fun hv => ?_, fun v hv hpi => ?_⟩, fun h1 h2 h3 => ?_⟩
  · simp [handle_interactions, h, InteractionType.APPLICATION_COMMAND,
      InteractionType.PING]
  · simp [handle_interactions, h, InteractionType.APPLICATION_COMMAND,
      InteractionType.PING]
  · simp [process_search_command, hq]
  · simp [handle_interactions, h, hv, InteractionType.MESSAGE_COMPONENT,
      InteractionType.PING, InteractionType.APPLICATION_COMMAND]
  · simp [handle_interactions, h, hv, hpi, InteractionType.MESSAGE_COMPONENT,
      InteractionType.PING, InteractionType.APPLICATION_COMMAND]
  · simp [handle_interactions, h1, h2, h3]

/-- Witness for C6 (amended): a selection whose value is not an integer is
an unhandled error (500), not a 404 and not a tagged response. -/
theorem payload_not_validated_dispatch_witness :
    handle_interactions (some "sig") (some "ts") true
      { type := 3, token := "tok", data := some { values := some ["abc"] } }
      (fun _ => none) = { status := 500 } := by
  have h := payload_not_validated_dispatch "sig" "ts"
    { type := 3, token := "tok", data := some { values := some ["abc"] } }
    (fun _ => none)
  exact (h.2.1 rfl).2 "abc" rfl (by decide)

/-- C5: a `ComponentSelect` whose selected value is the `str`-rendered id of
a record in a multi-match search (so that value occurs among the emitted
option values) resolves, via the detail fetch, to an `UPDATE_MESSAGE`
carrying the display card of that same id (the card URL names the id), and
the outcome is independent of any search-session state: the selection
result of a scenario does not depend on which searches ran alongside it. -/
theorem select_roundtrip_stateless (cmd sel : Interaction) (q : String)
    (upstream : Except Unit (List BookSummary)) (fetch : Int → Option BookDetails)
    (sig ts : String) (b : BookSummary) (books : List BookSummary)
    (details : BookDetails) (bd : BookData)
    (hq : getCommandQuery cmd = some q)
    (hbooks : search_ranobedb q upstream = books)
    (hlen : 2 ≤ books.length) (hmem : b ∈ books)
    (hseltype : sel.type = InteractionType.MESSAGE_COMPONENT)
    (hselval : getSelectedValue sel = some (toString b.id))
    (hfetch : fetch b.id = some details) (hbook : details.book = some bd)
    (hbdid : bd.id = some b.id) :
    (∃ f, process_search_command cmd upstream fetch = some f ∧
      toString b.id ∈ f.selectOptions.map SelectOption.value) ∧
    handle_interactions (some sig) (some ts) true sel fetch =
      { status := 200
        tag := some InteractionResponseType.UPDATE_MESSAGE
        data := some { content := some ""
                       embeds := [create_book_embed bd]
                       components := some [] }
        callsBefore := [CatalogCall.fetch b.id] } ∧
    (create_book_embed bd).url = "https://ranobedb.org/book/" ++ toString b.id ∧
    ∀ searches1 searches2 : List (Interaction × Except Unit (List BookSummary)),
      (runScenario searches1 sel sig ts fetch).2 =
        (runScenario searches2 sel sig ts fetch).2 := by
  refine ⟨?_, ?_, ?_, fun s1 s2 => rfl⟩
  · rcases books with _ | ⟨b1, _ | ⟨b2, rest⟩⟩
    · simp at hlen
    · simp at hlen
    · refine ⟨multiFollowUp (b1 :: b2 :: rest),
        process_multi_eq cmd q upstream fetch b1 b2 rest hq hbooks, ?_⟩
      rw [multiFollowUp_selectOptions, List.map_map]
      exact List.mem_map.mpr ⟨b, hmem, rfl⟩
  · exact handle_component_success sig ts sel fetch (toString b.id) b.id details bd
      hseltype hselval (pyInt_toString_int b.id) hfetch hbook
  · show "https://ranobedb.org/book/" ++ pyIdStr bd.id = _
    rw [hbdid]
    rfl

/-- Witness for C5 at the spec scenario: search results `{10, 11, 12}`,
selection of `"11"`, fetch resolving id 11. -/
theorem select_roundtrip_stateless_witness :
    handle_interactions (some "sig") (some "ts") true
      { type := 3, token := "tok", data := some { values := some ["11"] } }
      (fun i => if i = 11 then some { book := some { id := some 11, title := some "T" } }
                else none) =
      { status := 200
        tag := some InteractionResponseType.UPDATE_MESSAGE
        data := some { content := some ""
                       embeds := [create_book_embed { id := some 11, title := some "T" }]
                       components := some [] }
        callsBefore := [CatalogCall.fetch 11] } ∧
    (create_book_embed { id := some 11, title := some "T" }).url =
      "https://ranobedb.org/book/11" := by
  have h := select_roundtrip_stateless
    { type := 2, data := some { options := some ["isekai"] } }
    { type := 3, token := "tok", data := some { values := some ["11"] } }
    "isekai" (.ok [{ id := 10 }, { id := 11 }, { id := 12 }])
    (fun i => if i = 11 then some { book := some { id := some 11, title := some "T" } }
              else none)
    "sig" "ts" { id := 11 } [{ id := 10 }, { id := 11 }, { id := 12 }]
    { book := some { id := some 11, title := some "T" } }
    { id := some 11, title := some "T" }
    rfl rfl (by decide) (by decide) rfl (by decide) (by decide) rfl rfl
  refine ⟨h.2.1, ?_⟩
  rw [h.2.2.1]
  decide

end RanobeLN
